import Mathlib

/-!
Verification of the pihole-sentinel monitor core
(`src/dashboard/monitor.py`).

This file gives a shallow embedding of the monitor's pure decision logic:

* the per-node prober `check_pihole_simple` (lines 863-964), with the
  outcomes of its network sub-steps supplied by an explicit `ProbeEnv`
  oracle (each `Except Unit _` field: `.error ()` means the Python call
  raised, `.ok` carries the HTTP-level outcome);
* the reminder gate `should_send_reminder` (lines 337-357), with datetimes
  modelled as integer seconds;
* the VIP resolver `check_who_has_vip` (lines 986-1065), with the per-attempt
  ARP observations supplied by an attempt-indexed oracle;
* one tick of `monitor_loop` (lines 1082-1259) as a pure function from the
  previous `MonitorState`, the probe results and the VIP flags to the list
  of events the tick logs, the snapshot row it inserts, and the updated
  state; and the loop's outer try/except skeleton.

Events emitted from inside `send_notification` / `check_and_send_reminders`
(kinds `notification` and `warning` about delivery) are not part of the tick
model; none of them has kind `failover`, so failover-event counts are
unaffected.  The mojibake emoji prefixes on some logged messages are omitted
from the modelled message strings.
-/

namespace PiholeSentinel

/-- Event kinds written to the `events` table by `log_event`. -/
inductive EventKind
  | info
  | warning
  | success
  | failover
  | error
  | notification
deriving DecidableEq, Repr

/-- One row of the `events` table: kind plus free-text message. -/
structure Event where
  kind : EventKind
  msg : String
deriving DecidableEq, Repr

/-- The `result` dict built by `check_pihole_simple` (monitor.py lines
865-873): reachability, service health, counters, DHCP info. -/
structure PiholeResult where
  online : Bool
  pihole : Bool
  queries : Nat
  blocked : Nat
  clients : Nat
  dhcp_leases : Nat
  dhcp_enabled : Bool
deriving DecidableEq, Repr

/-- The all-false / all-zero initial `result` dict (lines 865-873). -/
def initResult : PiholeResult :=
  { online := false, pihole := false, queries := 0, blocked := 0,
    clients := 0, dhcp_leases := 0, dhcp_enabled := false }

/-- Body of a successful `/api/stats/summary` response (line 913). -/
structure SummaryStats where
  dns_queries_today : Nat
  ads_blocked_today : Nat
  unique_clients : Nat
deriving DecidableEq, Repr

/-- Oracle for one call to `check_pihole_simple`: the outcome of each
network sub-step, in program order.
* `connectError`: the TCP-socket block (lines 877-883) raised;
* `connectOk`: `connect_ex((ip, 80)) == 0` (line 880);
* `sessionError`: `get_http_session()` raised, landing in the outer
  `except` at line 961;
* `authResult`: `.error ()` = the auth POST raised (line 900);
  `.ok none` = non-200 status or no `session.sid` in the body;
  `.ok (some sid)` = a session id was obtained;
* `statsResult`: `.error ()` = the stats GET raised (line 918);
  `.ok none` = non-200 status; `.ok (some s)` = HTTP 200 with body `s`;
* `dhcpResult`: `.error ()` = the DHCP-config GET raised; `.ok none` =
  non-200; `.ok (some b)` = HTTP 200 with `config.dhcp.active = b`;
* `leasesResult`: `.error ()` = the leases GET raised; `.ok none` =
  non-200; `.ok (some l)` = HTTP 200 whose `leases` field normalises
  (missing or `null` becomes `[]`, lines 943-945) to the list `l`. -/
structure ProbeEnv where
  connectError : Bool
  connectOk : Bool
  sessionError : Bool
  authResult : Except Unit (Option String)
  statsResult : Except Unit (Option SummaryStats)
  dhcpResult : Except Unit (Option Bool)
  leasesResult : Except Unit (Option (List Unit))

/-- `check_pihole_simple` (monitor.py lines 863-964) as a pure function of
the network oracle.  Straight-line translation of the source: connect test,
early return when offline, auth (exception or missing sid returns the
partial result), stats (success sets `pihole := true` and the counters,
exception sets `pihole := false`, non-200 leaves it), then DHCP config and
leases only when `pihole` is true; logout (lines 956-960) has no effect on
the result. -/
def check_pihole_simple (env : ProbeEnv) : PiholeResult :=
  if env.connectError then initResult
  else
    let result := { initResult with online := env.connectOk }
    if !result.online then result
    else if env.sessionError then result
    else
      match env.authResult with
      | .error _ => result
      | .ok none => result
      | .ok (some _sid) =>
        let result :=
          match env.statsResult with
          | .ok (some stats) =>
            { result with pihole := true,
                          queries := stats.dns_queries_today,
                          blocked := stats.ads_blocked_today,
                          clients := stats.unique_clients }
          | .ok none => result
          | .error _ => { result with pihole := false }
        if result.pihole then
          let dhcpOn :=
            match env.dhcpResult with
            | .ok (some b) => b
            | _ => false
          let leases :=
            match env.leasesResult with
            | .ok (some l) => l.length
            | _ => 0
          { result with dhcp_enabled := dhcpOn, dhcp_leases := leases }
        else result

/-- The `repeat` section of the notification settings JSON (lines 339-344):
enablement flag and interval in minutes. -/
structure RepeatSettings where
  enabled : Bool
  interval : Int
deriving DecidableEq, Repr

/-- `should_send_reminder` (monitor.py lines 337-357) with datetimes as
integer seconds.  Gates in source order: repeat enabled, positive interval,
issue still active (`notification_state["active_issues"]`), a recorded
`last_notification_time`, and `elapsed >= timedelta(minutes=interval)`. -/
def should_send_reminder (rep : RepeatSettings) (activeIssue : Bool)
    (lastTime : Option Int) (now : Int) : Bool :=
  if !rep.enabled then false
  else if rep.interval ≤ 0 then false
  else if !activeIssue then false
  else
    match lastTime with
    | none => false
    | some t => decide (rep.interval * 60 ≤ now - t)

/-- Python's `str.upper()` applied to a MAC token (line 1035), as a
structural map over the characters (MAC tokens are ASCII, where
`Char.toUpper` agrees with Python's `upper`). -/
def strUpper (s : String) : String :=
  ⟨s.data.map Char.toUpper⟩

/-- The nested `extract_mac` of `check_who_has_vip` (lines 1030-1037), on
the whitespace-token list of an `ip neigh show` output: find the token
`lladdr`, return the following token uppercased; `none` when the marker is
absent (`ValueError`) or is the last token (`IndexError`). -/
def extract_mac (parts : List String) : Option String :=
  match parts.findIdx? (· == "lladdr") with
  | none => none
  | some i => (parts.get? (i + 1)).map strUpper

/-- The three `ip neigh show` outputs of one resolver attempt (lines
1024-1028), each as its whitespace-token list. -/
structure ArpObs where
  vip_out : List String
  primary_out : List String
  secondary_out : List String
deriving DecidableEq, Repr

/-- Python truthiness-guarded MAC comparison `a and b and a == b` (lines
1045, 1047).  `split()` never yields empty tokens, so an extracted MAC is
truthy exactly when the `Option` is `some`. -/
def macMatch (a b : Option String) : Bool :=
  match a, b with
  | some x, some y => x == y
  | _, _ => false

/-- The `for attempt in range(max_retries)` loop of `check_who_has_vip`
(lines 992-1065).  `env attempt` is attempt number `attempt`'s outcome:
`.error ()` means the attempt's body raised (caught at line 1058), `.ok`
carries the ARP observations.  `fuel` is the number of attempts left, so
the destructured remainder being positive is exactly the source's
`attempt < max_retries - 1` retry guard; the `fuel = 0` case is the
`return False, False` after the loop (line 1065). -/
def check_vip_loop (env : Nat → Except Unit ArpObs) (attempt : Nat) :
    Nat → Bool × Bool
  | 0 => (false, false)
  | fuel + 1 =>
    match env attempt with
    | .error _ =>
      if fuel > 0 then check_vip_loop env (attempt + 1) fuel
      else (false, false)
    | .ok obs =>
      let vip_mac := extract_mac obs.vip_out
      let primary_mac := extract_mac obs.primary_out
      let secondary_mac := extract_mac obs.secondary_out
      if macMatch vip_mac primary_mac then (true, false)
      else if macMatch vip_mac secondary_mac then (false, true)
      else if vip_mac.isNone then
        if fuel > 0 then check_vip_loop env (attempt + 1) fuel
        else (false, false)
      else (false, false)

/-- `check_who_has_vip` (lines 986-1065) with its default `max_retries = 3`:
run the attempt loop from attempt 0 with 3 attempts of fuel.  Returns
`(primary_has_vip, secondary_has_vip)`. -/
def check_who_has_vip (env : Nat → Except Unit ArpObs) : Bool × Bool :=
  check_vip_loop env 0 3

/-- The resolved active role `current_master` (line 1160): the Python
string `"primary"` or `"secondary"`; `previous_state` starts as `None`. -/
inductive Role
  | primary
  | secondary
deriving DecidableEq, Repr

/-- The loop-local previous-tick variables of `monitor_loop`
(lines 1073-1080), all initialised to `None` / `True`. -/
structure MonitorState where
  previous_state : Option Role
  previous_primary_online : Option Bool
  previous_secondary_online : Option Bool
  previous_primary_pihole : Option Bool
  previous_secondary_pihole : Option Bool
  previous_primary_has_vip : Option Bool
  previous_secondary_has_vip : Option Bool
  startup : Bool
deriving DecidableEq, Repr

/-- `MonitorState` at process start (lines 1073-1080). -/
def initialMonitorState : MonitorState :=
  { previous_state := none, previous_primary_online := none,
    previous_secondary_online := none, previous_primary_pihole := none,
    previous_secondary_pihole := none, previous_primary_has_vip := none,
    previous_secondary_has_vip := none, startup := true }

/-- The `notification_state["active_issues"]` entries the tick writes
(lines 1207, 1213-1214, 1220-1222). -/
structure NotifState where
  failoverActive : Bool
  faultActive : Bool
deriving DecidableEq, Repr

/-- One row of `status_history` as inserted at lines 1152-1157. -/
structure StatusSnapshot where
  primary_state : String
  secondary_state : String
  primary_has_vip : Bool
  secondary_has_vip : Bool
  primary_online : Bool
  secondary_online : Bool
  primary_pihole : Bool
  secondary_pihole : Bool
  primary_dns : Bool
  secondary_dns : Bool
  dhcp_leases : Nat
  primary_dhcp : Bool
  secondary_dhcp : Bool
deriving DecidableEq, Repr

/-- Startup block (lines 1097-1102): three `info` events on the first
tick, naming whichever node's state string is `"MASTER"` as MASTER. -/
def startupEvents (startup : Bool) (primary_state : String)
    (pd sd : PiholeResult) : List Event :=
  if startup then
    [⟨.info, "Monitor started - " ++
        (if primary_state == "MASTER" then "Primary" else "Secondary") ++
        " is MASTER"⟩,
     ⟨.info, "Primary: " ++ (if pd.online then "Online" else "Offline") ++
        ", Pi-hole: " ++ (if pd.pihole then "OK" else "Down")⟩,
     ⟨.info, "Secondary: " ++ (if sd.online then "Online" else "Offline") ++
        ", Pi-hole: " ++ (if sd.pihole then "OK" else "Down")⟩]
  else []

/-- Online/offline transition detection for one node (lines 1105-1119). -/
def onlineChangeEvents (prev : Option Bool) (cur : Bool) (name : String) :
    List Event :=
  match prev with
  | none => []
  | some p =>
    if p && !cur then [⟨.warning, name ++ " went OFFLINE"⟩]
    else if !p && cur then [⟨.success, name ++ " is back ONLINE"⟩]
    else []

/-- Pi-hole service transition detection for one node (lines 1122-1136):
going down is only reported while the node is online; coming back up is
unconditional. -/
def piholeChangeEvents (prev : Option Bool) (cur online : Bool)
    (name : String) : List Event :=
  match prev with
  | none => []
  | some p =>
    if p && !cur && online then
      [⟨.warning, "Pi-hole service on " ++ name ++ " is DOWN"⟩]
    else if !p && cur then
      [⟨.success, "Pi-hole service on " ++ name ++ " is back UP"⟩]
    else []

/-- VIP holder change detection (lines 1139-1144): once both previous
flags exist, any difference in either flag logs one `warning` naming old
and new holder (a node not holding the VIP reads as `Secondary` /
`Primary` per the two conditional expressions at lines 1141-1142). -/
def vipChangeEvents (prevP prevS : Option Bool) (curP curS : Bool) :
    List Event :=
  match prevP, prevS with
  | some pp, some ps =>
    if pp != curP || ps != curS then
      [⟨.warning, "VIP switched from " ++
          (if pp then "Primary" else "Secondary") ++ " to " ++
          (if curP then "Primary" else "Secondary")⟩]
    else []
  | _, _ => []

/-- Failover detection (lines 1159-1181): when a previous role exists and
differs from `current_master`, one `failover` event naming the new master,
followed by at most one `info` root-cause event chosen from the
already-collected health data. -/
def failoverEvents (prevState : Option Role) (current : Role)
    (pd sd : PiholeResult) : List Event :=
  match prevState with
  | none => []
  | some r =>
    if r ≠ current then
      ⟨.failover,
        (if current = Role.primary then "Primary" else "Secondary") ++
          " became MASTER"⟩ ::
      (if current = Role.secondary then
        if !pd.online then [⟨.info, "Failover reason: Primary is offline"⟩]
        else if !pd.pihole then
          [⟨.info, "Failover reason: Pi-hole service on Primary is down"⟩]
        else []
      else
        if !sd.online then [⟨.info, "Failback reason: Secondary is offline"⟩]
        else if !sd.pihole then
          [⟨.info, "Failback reason: Pi-hole service on Secondary is down"⟩]
        else [])
    else []

/-- DHCP misconfiguration check for one node (lines 1240-1252): MASTER
with DHCP disabled, or BACKUP with DHCP enabled, each logs one `warning`
(emoji prefix omitted from the modelled message). -/
def dhcpMisconfigEvents (state : String) (dhcp : Bool) (name : String) :
    List Event :=
  if state == "MASTER" && !dhcp then
    [⟨.warning, "DHCP misconfiguration: " ++ name ++
        " is MASTER but DHCP is DISABLED"⟩]
  else if state == "BACKUP" && dhcp then
    [⟨.warning, "DHCP misconfiguration: " ++ name ++
        " is BACKUP but DHCP is ENABLED"⟩]
  else []

/-- Everything one tick produces: the `log_event` calls of the
`monitor_loop` body in program order, the `status_history` row, and the
updated loop state and active-issue flags. -/
structure TickResult where
  events : List Event
  snapshot : StatusSnapshot
  state : MonitorState
  notif : NotifState
deriving DecidableEq, Repr

/-- One tick of `monitor_loop` (body of the `try` at lines 1084-1254) as a
pure function.  Inputs: previous state and active-issue flags, the two
probe results, the raw DNS-probe outcomes (gated on `online` exactly as at
lines 1088-1089), and the VIP flags from `check_who_has_vip` (line 1091).
Output events in source order: startup infos, per-node online changes,
per-node service changes, VIP switch warning, failover plus reason, DHCP
misconfiguration warnings (which the source emits after updating the
previous-tick variables). -/
def monitorTick (st : MonitorState) (notif : NotifState)
    (pd sd : PiholeResult) (pDnsProbe sDnsProbe : Bool)
    (primary_has_vip secondary_has_vip : Bool) : TickResult :=
  let primary_dns := if pd.online then pDnsProbe else false
  let secondary_dns := if sd.online then sDnsProbe else false
  let primary_state := if primary_has_vip then "MASTER" else "BACKUP"
  let secondary_state := if secondary_has_vip then "MASTER" else "BACKUP"
  let dhcp_leases :=
    if primary_state == "MASTER" then pd.dhcp_leases
    else if secondary_state == "MASTER" then sd.dhcp_leases
    else 0
  let current_master : Role :=
    if primary_state == "MASTER" then Role.primary else Role.secondary
  let snapshot : StatusSnapshot :=
    { primary_state := primary_state, secondary_state := secondary_state,
      primary_has_vip := primary_has_vip,
      secondary_has_vip := secondary_has_vip,
      primary_online := pd.online, secondary_online := sd.online,
      primary_pihole := pd.pihole, secondary_pihole := sd.pihole,
      primary_dns := primary_dns, secondary_dns := secondary_dns,
      dhcp_leases := dhcp_leases,
      primary_dhcp := pd.dhcp_enabled, secondary_dhcp := sd.dhcp_enabled }
  let failoverHappened :=
    match st.previous_state with
    | none => false
    | some r => decide (r ≠ current_master)
  let failoverActive :=
    if failoverHappened then
      if current_master = Role.primary then false else true
    else notif.failoverActive
  let both_offline := !pd.online && !sd.online
  let both_pihole_down := !pd.pihole && !sd.pihole
  -- the recovery block (lines 1210-1214) may clear the fault flag, but
  -- lines 1217-1222 then overwrite it unconditionally from this tick's data
  let faultActive := both_offline || both_pihole_down
  let events :=
    startupEvents st.startup primary_state pd sd ++
    onlineChangeEvents st.previous_primary_online pd.online "Primary" ++
    onlineChangeEvents st.previous_secondary_online sd.online "Secondary" ++
    piholeChangeEvents st.previous_primary_pihole pd.pihole pd.online
      "Primary" ++
    piholeChangeEvents st.previous_secondary_pihole sd.pihole sd.online
      "Secondary" ++
    vipChangeEvents st.previous_primary_has_vip st.previous_secondary_has_vip
      primary_has_vip secondary_has_vip ++
    failoverEvents st.previous_state current_master pd sd ++
    dhcpMisconfigEvents primary_state pd.dhcp_enabled "Primary" ++
    dhcpMisconfigEvents secondary_state sd.dhcp_enabled "Secondary"
  { events := events,
    snapshot := snapshot,
    state :=
      { previous_state := some current_master,
        previous_primary_online := some pd.online,
        previous_secondary_online := some sd.online,
        previous_primary_pihole := some pd.pihole,
        previous_secondary_pihole := some sd.pihole,
        previous_primary_has_vip := some primary_has_vip,
        previous_secondary_has_vip := some secondary_has_vip,
        startup := false },
    notif := { failoverActive := failoverActive, faultActive := faultActive } }

/-- The outer try/except skeleton of one `while True` iteration of
`monitor_loop` (lines 1082-1259).  `body` is the outcome of the tick body
(the whole `try` block, lines 1084-1254); `logError` is the outcome of the
`log_event("error", ...)` call in the `except` handler (line 1258), which
the source does not itself guard.  Result `.ok ()` means the iteration
reaches the `asyncio.sleep` at line 1259 and the loop continues;
`.error ()` means an exception escapes the iteration and the loop task
terminates. -/
def monitor_iteration (body : Except Unit Unit)
    (logError : Except Unit Unit) : Except Unit Unit :=
  match body with
  | .ok _ => .ok ()
  | .error _ => logError

/-- Number of events of kind `k` in a list. -/
def countKind (k : EventKind) (es : List Event) : Nat :=
  es.countP (fun e => e.kind == k)

lemma countKind_append (k : EventKind) (a b : List Event) :
    countKind k (a ++ b) = countKind k a + countKind k b :=
  List.countP_append _ _ _

lemma macMatch_none_left (b : Option String) : macMatch none b = false :=
  rfl

lemma countKind_startupEvents (k : EventKind) (s : Bool) (ps : String)
    (pd sd : PiholeResult) (hk : k ≠ EventKind.info) :
    countKind k (startupEvents s ps pd sd) = 0 := by
  cases s <;> simp [startupEvents, countKind, List.countP_cons, hk.symm]

lemma countKind_onlineChangeEvents (k : EventKind) (p : Option Bool)
    (c : Bool) (n : String) (hw : k ≠ EventKind.warning)
    (hs : k ≠ EventKind.success) :
    countKind k (onlineChangeEvents p c n) = 0 := by
  rcases p with _ | b
  · rfl
  · simp only [onlineChangeEvents]
    split_ifs <;> simp [countKind, List.countP_cons, hw.symm, hs.symm]

lemma countKind_piholeChangeEvents (k : EventKind) (p : Option Bool)
    (c o : Bool) (n : String) (hw : k ≠ EventKind.warning)
    (hs : k ≠ EventKind.success) :
    countKind k (piholeChangeEvents p c o n) = 0 := by
  rcases p with _ | b
  · rfl
  · simp only [piholeChangeEvents]
    split_ifs <;> simp [countKind, List.countP_cons, hw.symm, hs.symm]

lemma countKind_vipChangeEvents (k : EventKind) (pp ps : Option Bool)
    (cp cs : Bool) (hw : k ≠ EventKind.warning) :
    countKind k (vipChangeEvents pp ps cp cs) = 0 := by
  rcases pp with _ | b <;> rcases ps with _ | b' <;>
    simp [vipChangeEvents, countKind, List.countP_cons, hw.symm]

lemma countKind_dhcpMisconfigEvents (k : EventKind) (st : String)
    (d : Bool) (n : String) (hw : k ≠ EventKind.warning) :
    countKind k (dhcpMisconfigEvents st d n) = 0 := by
  simp only [dhcpMisconfigEvents]
  split_ifs <;> simp [countKind, List.countP_cons, hw.symm]

lemma countKind_failover_failoverEvents (prev : Option Role)
    (cur : Role) (pd sd : PiholeResult) :
    countKind EventKind.failover (failoverEvents prev cur pd sd) =
      (match prev with
       | none => 0
       | some r => if r = cur then 0 else 1) := by
  rcases prev with _ | r
  · rfl
  · by_cases h : r = cur <;>
      simp [failoverEvents, countKind, List.countP_cons, h] <;>
      split_ifs <;> simp [List.countP_cons]

end PiholeSentinel

open PiholeSentinel

/-- C7: for every probe-oracle outcome, the `NodeHealth` returned by
`check_pihole_simple` satisfies `serviceUp = true → reachable = true`
(result keys `pihole` and `online`): on every early-return and exception
path the service flag can only be true when the reachability flag is. -/
theorem c7_pihole_implies_online (env : ProbeEnv)
    (h : (check_pihole_simple env).pihole = true) :
    (check_pihole_simple env).online = true := by
  rcases env with ⟨ce, co, se, ar, sr, dr, lr⟩
  cases ce <;> cases co <;> cases se <;>
    rcases ar with ⟨⟨⟩⟩ | ⟨_ | s⟩ <;>
    rcases sr with ⟨⟨⟩⟩ | ⟨_ | st⟩ <;>
    simp_all [check_pihole_simple, initResult]

/-- Witness for C7 at a concrete oracle where the service flag is true. -/
theorem c7_pihole_implies_online_witness :
    (check_pihole_simple
      ⟨false, true, false, .ok (some "SID"), .ok (some ⟨1, 0, 1⟩),
        .ok (some true), .ok (some [])⟩).online = true :=
  c7_pihole_implies_online _ (by rfl)

/-- C8: `should_send_reminder` returns true exactly when the repeat policy
is enabled with a positive interval, the event type's active-issue flag is
set, a last-sent time exists, and the elapsed time is at least the
interval; at exactly the interval boundary it returns true and one second
before it returns false. -/
theorem c8_reminder_gate :
    (∀ (rep : RepeatSettings) (active : Bool) (last : Option Int)
        (now : Int),
      should_send_reminder rep active last now = true ↔
        (rep.enabled = true ∧ 0 < rep.interval ∧ active = true ∧
          ∃ t, last = some t ∧ rep.interval * 60 ≤ now - t)) ∧
    (∀ (i t : Int), 0 < i →
      should_send_reminder ⟨true, i⟩ true (some t) (t + i * 60) = true ∧
      should_send_reminder ⟨true, i⟩ true (some t) (t + i * 60 - 1) = false) := by
  constructor
  · intro rep active last now
    rcases rep with ⟨en, iv⟩
    cases en <;> cases active <;> rcases last with _ | t <;>
      simp [should_send_reminder] <;> omega
  · intro i t hi
    constructor <;> simp [should_send_reminder] <;> omega

/-- Witness for C8 at interval 5 minutes, last sent at time 0: true at
elapsed 300 seconds, false at 299. -/
theorem c8_reminder_gate_witness :
    should_send_reminder ⟨true, 5⟩ true (some 0) 300 = true ∧
    should_send_reminder ⟨true, 5⟩ true (some 0) 299 = false := by
  have h := c8_reminder_gate.2 5 0 (by norm_num)
  norm_num at h
  exact h

/-- C9: when the first attempt's observations give the VIP, the primary
and the secondary all the same link-layer address, `check_who_has_vip`
returns `(true, false)`: the comparison is primary-first and the primary
is declared owner in the tie case. -/
theorem c9_tie_primary_first (env : Nat → Except Unit ArpObs)
    (obs : ArpObs) (m : String)
    (h0 : env 0 = .ok obs)
    (hv : extract_mac obs.vip_out = some m)
    (hp : extract_mac obs.primary_out = some m)
    (hs : extract_mac obs.secondary_out = some m) :
    check_who_has_vip env = (true, false) := by
  simp [check_who_has_vip, check_vip_loop, h0, hv, hp, hs, macMatch]

/-- Witness for C9: concrete `ip neigh` token lists where all three
addresses resolve to `AA:BB:CC:DD:EE:FF`. -/
theorem c9_tie_primary_first_witness :
    check_who_has_vip (fun _ =>
      .ok ⟨["192.168.1.100", "dev", "eth0", "lladdr", "aa:bb:cc:dd:ee:ff",
              "REACHABLE"],
           ["192.168.1.2", "dev", "eth0", "lladdr", "aa:bb:cc:dd:ee:ff",
              "REACHABLE"],
           ["192.168.1.3", "dev", "eth0", "lladdr", "aa:bb:cc:dd:ee:ff",
              "REACHABLE"]⟩) = (true, false) :=
  c9_tie_primary_first _ _ "AA:BB:CC:DD:EE:FF" rfl (by decide) (by decide)
    (by decide)

/-- C3: retry semantics of `check_who_has_vip`.
(1) If the first attempt resolves the VIP to an address matching neither
node, the call returns `(false, false)` immediately, whatever later
attempts would observe.
(2) If the VIP has no link-layer entry on attempts 0 and 1 and on attempt
2 resolves to the primary's address, the call returns `(true, false)` —
the no-entry case is retried rather than reported as "neither".
(3) If the VIP has no entry on all three attempts, the call concludes
`(false, false)` only after exhausting the retry bound of 3. -/
theorem c3_vip_retry_semantics :
    (∀ (env : Nat → Except Unit ArpObs) (obs : ArpObs),
      env 0 = .ok obs →
      (extract_mac obs.vip_out).isSome = true →
      macMatch (extract_mac obs.vip_out) (extract_mac obs.primary_out)
        = false →
      macMatch (extract_mac obs.vip_out) (extract_mac obs.secondary_out)
        = false →
      check_who_has_vip env = (false, false)) ∧
    (∀ (env : Nat → Except Unit ArpObs) (o0 o1 o2 : ArpObs),
      env 0 = .ok o0 → env 1 = .ok o1 → env 2 = .ok o2 →
      extract_mac o0.vip_out = none → extract_mac o1.vip_out = none →
      macMatch (extract_mac o2.vip_out) (extract_mac o2.primary_out)
        = true →
      check_who_has_vip env = (true, false)) ∧
    (∀ (env : Nat → Except Unit ArpObs) (o0 o1 o2 : ArpObs),
      env 0 = .ok o0 → env 1 = .ok o1 → env 2 = .ok o2 →
      extract_mac o0.vip_out = none → extract_mac o1.vip_out = none →
      extract_mac o2.vip_out = none →
      check_who_has_vip env = (false, false)) := by
  refine ⟨?_, ?_, ?_⟩
  · intro env obs h0 hv hp hs
    obtain ⟨m, hm⟩ := Option.isSome_iff_exists.mp hv
    rw [hm] at hp hs
    simp [check_who_has_vip, check_vip_loop, h0, hp, hs, hm]
  · intro env o0 o1 o2 h0 h1 h2 hv0 hv1 hm
    simp [check_who_has_vip, check_vip_loop, h0, h1, h2, hv0, hv1, hm,
      macMatch_none_left]
  · intro env o0 o1 o2 h0 h1 h2 hv0 hv1 hv2
    simp [check_who_has_vip, check_vip_loop, h0, h1, h2, hv0, hv1, hv2,
      macMatch_none_left]

/-- Witness for C3: all three parts at concrete ARP observations —
a mismatching VIP MAC (`CC:CC`) on attempt 0 returns neither even though
attempt 1 would match the primary; a missing VIP entry on attempts 0 and 1
followed by a primary match on attempt 2 returns primary; a missing VIP
entry throughout returns neither. -/
theorem c3_vip_retry_semantics_witness :
    check_who_has_vip (fun n =>
      if n = 0 then
        .ok ⟨["10.0.0.1", "dev", "eth0", "lladdr", "cc:cc", "STALE"],
             ["10.0.0.2", "dev", "eth0", "lladdr", "aa:aa", "REACHABLE"],
             ["10.0.0.3", "dev", "eth0", "lladdr", "bb:bb", "REACHABLE"]⟩
      else
        .ok ⟨["10.0.0.1", "dev", "eth0", "lladdr", "aa:aa", "REACHABLE"],
             ["10.0.0.2", "dev", "eth0", "lladdr", "aa:aa", "REACHABLE"],
             ["10.0.0.3", "dev", "eth0", "lladdr", "bb:bb", "REACHABLE"]⟩)
      = (false, false) ∧
    check_who_has_vip (fun n =>
      if n ≤ 1 then
        .ok ⟨["10.0.0.1", "dev", "eth0", "FAILED"],
             ["10.0.0.2", "dev", "eth0", "lladdr", "aa:aa", "REACHABLE"],
             ["10.0.0.3", "dev", "eth0", "lladdr", "bb:bb", "REACHABLE"]⟩
      else
        .ok ⟨["10.0.0.1", "dev", "eth0", "lladdr", "aa:aa", "REACHABLE"],
             ["10.0.0.2", "dev", "eth0", "lladdr", "aa:aa", "REACHABLE"],
             ["10.0.0.3", "dev", "eth0", "lladdr", "bb:bb", "REACHABLE"]⟩)
      = (true, false) ∧
    check_who_has_vip (fun _ =>
      .ok ⟨["10.0.0.1", "dev", "eth0", "FAILED"],
           ["10.0.0.2", "dev", "eth0", "lladdr", "aa:aa", "REACHABLE"],
           ["10.0.0.3", "dev", "eth0", "lladdr", "bb:bb", "REACHABLE"]⟩)
      = (false, false) := by
  refine ⟨c3_vip_retry_semantics.1 _
      ⟨["10.0.0.1", "dev", "eth0", "lladdr", "cc:cc", "STALE"],
       ["10.0.0.2", "dev", "eth0", "lladdr", "aa:aa", "REACHABLE"],
       ["10.0.0.3", "dev", "eth0", "lladdr", "bb:bb", "REACHABLE"]⟩
      ?_ ?_ ?_ ?_,
    c3_vip_retry_semantics.2.1 _
      ⟨["10.0.0.1", "dev", "eth0", "FAILED"],
       ["10.0.0.2", "dev", "eth0", "lladdr", "aa:aa", "REACHABLE"],
       ["10.0.0.3", "dev", "eth0", "lladdr", "bb:bb", "REACHABLE"]⟩
      ⟨["10.0.0.1", "dev", "eth0", "FAILED"],
       ["10.0.0.2", "dev", "eth0", "lladdr", "aa:aa", "REACHABLE"],
       ["10.0.0.3", "dev", "eth0", "lladdr", "bb:bb", "REACHABLE"]⟩
      ⟨["10.0.0.1", "dev", "eth0", "lladdr", "aa:aa", "REACHABLE"],
       ["10.0.0.2", "dev", "eth0", "lladdr", "aa:aa", "REACHABLE"],
       ["10.0.0.3", "dev", "eth0", "lladdr", "bb:bb", "REACHABLE"]⟩
      ?_ ?_ ?_ ?_ ?_ ?_,
    c3_vip_retry_semantics.2.2 _
      ⟨["10.0.0.1", "dev", "eth0", "FAILED"],
       ["10.0.0.2", "dev", "eth0", "lladdr", "aa:aa", "REACHABLE"],
       ["10.0.0.3", "dev", "eth0", "lladdr", "bb:bb", "REACHABLE"]⟩
      ⟨["10.0.0.1", "dev", "eth0", "FAILED"],
       ["10.0.0.2", "dev", "eth0", "lladdr", "aa:aa", "REACHABLE"],
       ["10.0.0.3", "dev", "eth0", "lladdr", "bb:bb", "REACHABLE"]⟩
      ⟨["10.0.0.1", "dev", "eth0", "FAILED"],
       ["10.0.0.2", "dev", "eth0", "lladdr", "aa:aa", "REACHABLE"],
       ["10.0.0.3", "dev", "eth0", "lladdr", "bb:bb", "REACHABLE"]⟩
      ?_ ?_ ?_ ?_ ?_ ?_⟩ <;> rfl

/-- C1 counterexample: a reachable node whose authentication returns a
session id but whose stats fetch raises.  The claim says the returned
health has `pihole = true`; the code returns `pihole = false` (the service
flag is only set inside the successful stats branch, lines 911-917). -/
theorem c1_counterexample :
    (check_pihole_simple
        ⟨false, true, false, .ok (some "SID"), .error (), .ok none,
          .ok none⟩).online = true ∧
    ¬ ((check_pihole_simple
        ⟨false, true, false, .ok (some "SID"), .error (), .ok none,
          .ok none⟩).pihole = true) := by
  refine ⟨rfl, ?_⟩
  intro h
  exact absurd h (by decide)

/-- C1 (amended): `pihole` is true exactly when the connect test succeeds,
authentication yields a session id, and the stats fetch returns HTTP 200;
a failed stats fetch leaves `pihole = false` (it is never set true on auth
alone) and leaves the query/blocked/client counters at zero. -/
theorem c1_amended_pihole_iff_stats (env : ProbeEnv) :
    ((check_pihole_simple env).pihole = true ↔
      (env.connectError = false ∧ env.connectOk = true ∧
        env.sessionError = false ∧
        (∃ s, env.authResult = .ok (some s)) ∧
        (∃ st, env.statsResult = .ok (some st)))) ∧
    (env.statsResult = .error () →
      (check_pihole_simple env).pihole = false ∧
      (check_pihole_simple env).queries = 0 ∧
      (check_pihole_simple env).blocked = 0 ∧
      (check_pihole_simple env).clients = 0) := by
  rcases env with ⟨ce, co, se, ar, sr, dr, lr⟩
  cases ce <;> cases co <;> cases se <;>
    rcases ar with ⟨⟨⟩⟩ | ⟨_ | s⟩ <;>
    rcases sr with ⟨⟨⟩⟩ | ⟨_ | st⟩ <;>
    simp_all [check_pihole_simple, initResult]

/-- Witness for C1 (amended) at the stats-failure oracle: `pihole` false
and counters zero. -/
theorem c1_amended_pihole_iff_stats_witness :
    (check_pihole_simple
        ⟨false, true, false, .ok (some "SID"), .error (), .ok none,
          .ok none⟩).pihole = false ∧
    (check_pihole_simple
        ⟨false, true, false, .ok (some "SID"), .error (), .ok none,
          .ok none⟩).queries = 0 := by
  have h := (c1_amended_pihole_iff_stats
    ⟨false, true, false, .ok (some "SID"), .error (), .ok none,
      .ok none⟩).2 rfl
  exact ⟨h.1, h.2.1⟩

/-- C2: per tick, the state tracker logs exactly one `failover` event when
the resolved active role differs from the previous tick's role (line 1161)
and zero otherwise — never more than one, whatever combination of online,
service and VIP fields changed in the same tick. -/
theorem c2_exactly_one_failover_event (st : MonitorState)
    (notif : NotifState) (pd sd : PiholeResult) (d1 d2 pv sv : Bool) :
    countKind EventKind.failover
        (monitorTick st notif pd sd d1 d2 pv sv).events =
      (match st.previous_state with
       | none => 0
       | some r =>
         if r = (if pv then Role.primary else Role.secondary) then 0
         else 1) := by
  cases pv <;>
    simp [monitorTick, countKind_append, countKind_startupEvents,
      countKind_onlineChangeEvents, countKind_piholeChangeEvents,
      countKind_vipChangeEvents, countKind_dhcpMisconfigEvents,
      countKind_failover_failoverEvents]

/-- C4 (evaluation at the failing input): a tick where the VIP moves from
the primary to the secondary while both nodes stay online with the service
up.  The active role changes, so a `failover` event is logged — and the
VIP-switch `warning` is logged as well: the code (lines 1139-1144) does
not suppress the warning when the change coincides with a failover,
contrary to its own comment `Detect VIP changes (not during failover)`. -/
theorem c4_failing_input_eval :
    (monitorTick
        ⟨some Role.primary, some true, some true, some true, some true,
          some true, some false, false⟩
        ⟨false, false⟩
        ⟨true, true, 5, 1, 2, 7, false⟩
        ⟨true, true, 5, 1, 2, 7, true⟩
        true true false true).events =
      [⟨EventKind.warning, "VIP switched from Primary to Secondary"⟩,
       ⟨EventKind.failover, "Secondary became MASTER"⟩] := by
  rfl

/-- C5 counterexample: a tick whose body raises while the error-logging
`log_event` call at line 1258 also raises.  The loop iteration does not
reach the sleep — the exception escapes and the monitor task terminates,
so the loop is not exception-proof as claimed. -/
theorem c5_counterexample :
    monitor_iteration (.error ()) (.error ()) = .error () := by
  rfl

/-- C5 (amended): a tick-body exception is caught at the loop boundary and
the iteration continues exactly when the error-logging call itself
succeeds; a successful body always continues, and a failing body continues
iff `log_event("error", ...)` does not raise (the handler at lines
1256-1258 does not guard its own logging call). -/
theorem c5_amended_iteration_continues_iff (l : Except Unit Unit) :
    monitor_iteration (.ok ()) l = .ok () ∧
    monitor_iteration (.error ()) l = l :=
  ⟨rfl, rfl⟩

/-- C6 counterexample: a steady-state split-brain tick — both VIP flags
true, unchanged from the previous tick, both nodes online with service up
and DHCP enabled.  The snapshot records the anomalous both-true flags, yet
the tick logs zero events: the loop has no split-brain check and treats
the state as primary=MASTER, secondary=MASTER silently. -/
theorem c6_counterexample :
    (monitorTick
        ⟨some Role.primary, some true, some true, some true, some true,
          some true, some true, false⟩
        ⟨false, false⟩
        ⟨true, true, 5, 1, 2, 7, true⟩
        ⟨true, true, 5, 1, 2, 7, true⟩
        true true true true).snapshot.primary_has_vip = true ∧
    (monitorTick
        ⟨some Role.primary, some true, some true, some true, some true,
          some true, some true, false⟩
        ⟨false, false⟩
        ⟨true, true, 5, 1, 2, 7, true⟩
        ⟨true, true, 5, 1, 2, 7, true⟩
        true true true true).snapshot.secondary_has_vip = true ∧
    (monitorTick
        ⟨some Role.primary, some true, some true, some true, some true,
          some true, some true, false⟩
        ⟨false, false⟩
        ⟨true, true, 5, 1, 2, 7, true⟩
        ⟨true, true, 5, 1, 2, 7, true⟩
        true true true true).events = [] :=
  ⟨rfl, rfl, rfl⟩

/-- C6 (amended): the monitor loop never flags split-brain.  With both VIP
flags true every tick records primary and secondary both as `"MASTER"` and
resolves the active role to primary (the two independent conditionals at
lines 1093-1094 and the primary-first role resolution at line 1160); no
anomaly event is generated for the both-true state, and a steady-state
split-brain tick emits no events at all. -/
theorem c6_amended_split_brain_silent :
    (∀ (st : MonitorState) (notif : NotifState) (pd sd : PiholeResult)
        (d1 d2 : Bool),
      (monitorTick st notif pd sd d1 d2 true true).snapshot.primary_state
          = "MASTER" ∧
      (monitorTick st notif pd sd d1 d2 true true).snapshot.secondary_state
          = "MASTER" ∧
      (monitorTick st notif pd sd d1 d2 true true).state.previous_state
          = some Role.primary) ∧
    (monitorTick
        ⟨some Role.primary, some true, some true, some true, some true,
          some true, some true, false⟩
        ⟨false, false⟩
        ⟨true, true, 9, 3, 4, 2, true⟩
        ⟨true, true, 9, 3, 4, 2, true⟩
        true true true true).events = [] :=
  ⟨fun _ _ _ _ _ _ => ⟨rfl, rfl, rfl⟩, rfl⟩

/-- C10: when `check_who_has_vip` returns `(false, false)` (no node owns
the VIP), the tick nevertheless resolves the active role to secondary:
both persisted node states are `"BACKUP"`, `current_master` is
`secondary` (line 1160's else-branch — there is no "none" role), and the
startup and failover messages name Secondary as MASTER. -/
theorem c10_no_vip_resolves_secondary (st : MonitorState)
    (notif : NotifState) (pd sd : PiholeResult) (d1 d2 : Bool) :
    (monitorTick st notif pd sd d1 d2 false false).snapshot.primary_state
        = "BACKUP" ∧
    (monitorTick st notif pd sd d1 d2 false false).snapshot.secondary_state
        = "BACKUP" ∧
    (monitorTick st notif pd sd d1 d2 false false).state.previous_state
        = some Role.secondary ∧
    (st.startup = true →
      Event.mk EventKind.info "Monitor started - Secondary is MASTER" ∈
        (monitorTick st notif pd sd d1 d2 false false).events) ∧
    (st.previous_state = some Role.primary →
      Event.mk EventKind.failover "Secondary became MASTER" ∈
        (monitorTick st notif pd sd d1 d2 false false).events) := by
  refine ⟨rfl, rfl, rfl, ?_, ?_⟩
  · intro h
    simp [monitorTick, startupEvents, h]
  · intro h
    simp [monitorTick, failoverEvents, h]

/-- Witness for C10: a concrete previous state with `startup = true` and
previous role primary; the tick with no VIP owner reports Secondary as
MASTER in both the startup message and the failover event. -/
theorem c10_no_vip_resolves_secondary_witness :
    Event.mk EventKind.info "Monitor started - Secondary is MASTER" ∈
      (monitorTick
        ⟨some Role.primary, some true, some true, some true, some true,
          some true, some false, true⟩
        ⟨false, false⟩
        ⟨true, true, 5, 1, 2, 7, false⟩
        ⟨true, true, 5, 1, 2, 7, true⟩
        true true false false).events ∧
    Event.mk EventKind.failover "Secondary became MASTER" ∈
      (monitorTick
        ⟨some Role.primary, some true, some true, some true, some true,
          some true, some false, true⟩
        ⟨false, false⟩
        ⟨true, true, 5, 1, 2, 7, false⟩
        ⟨true, true, 5, 1, 2, 7, true⟩
        true true false false).events := by
  have h := c10_no_vip_resolves_secondary
    ⟨some Role.primary, some true, some true, some true, some true,
      some true, some false, true⟩
    ⟨false, false⟩
    ⟨true, true, 5, 1, 2, 7, false⟩
    ⟨true, true, 5, 1, 2, 7, true⟩
    true true
  exact ⟨h.2.2.2.1 rfl, h.2.2.2.2 rfl⟩
